import Mathlib

/-!
Verification of the hive conformance-test harness specification against the
repository sources.

The development shallowly embeds two source files:

* simulators/ethereum/engine/suites/cancun/tests.go — the declarative Cancun
  (EIP-4844) test tables: constants, test step records and the per-test
  sequences with their expected outcomes.
* simulators/ethereum/rpc-compat/main.go — the runTest response comparison,
  including the error-message redaction and the Kakarot response cleaning.

Free-text documentation fields of the Go tables (About, the expectation
description strings) are not part of the embedding; all machine-checked
fields (counts, blob lists, versioned-hash corruptions, expected statuses
and error codes, fork heights, flags) are embedded literally.

Helper functions that the tables call but whose definitions are not among
the provided sources (helper.GetBlobList, helper.GetBlobListByIndex,
GetMinExcessBlobsForBlobGasPrice, and the runtime semantics of the steps)
are modelled from the specification; each such definition carries a doc
comment starting with: Modelled from the spec.
-/

/-! ## EIP-4844 constants (tests.go lines 14-44) -/

def GAS_PER_BLOB : Nat := 0x20000

def MIN_DATA_GASPRICE : Nat := 1

def MAX_BLOB_GAS_PER_BLOCK : Nat := 786432

def TARGET_BLOB_GAS_PER_BLOCK : Nat := 393216

def TARGET_BLOBS_PER_BLOCK : Nat := TARGET_BLOB_GAS_PER_BLOCK / GAS_PER_BLOB

def MAX_BLOBS_PER_BLOCK : Nat := MAX_BLOB_GAS_PER_BLOCK / GAS_PER_BLOB

def BLOB_GASPRICE_UPDATE_FRACTION : Nat := 3338477

def BLOB_COMMITMENT_VERSION_KZG : Nat := 0x01

/-- Engine API error code for invalid params (tests.go line 37). -/
def INVALID_PARAMS_ERROR : Int := -32602

/-- Engine API error code for unsupported fork (tests.go line 38). -/
def UNSUPPORTED_FORK_ERROR : Int := -38005

/-! ## Blob gas price model -/

/-- Modelled from the spec: the integer approximation of
factor times exp(numerator / denominator) used by the EIP-4844 blob fee
market (spec section 4.4: price = baseFee times exp(excess / updateFraction)).
The helper that computes it in the engine simulator is not among the
provided sources. Taylor-series accumulation, fuel-bounded; each loop
iteration adds the current term and rescales it by numerator/(denominator*i). -/
def fakeExponentialAux (numerator denominator : Nat) :
    Nat → Nat → Nat → Nat → Nat
  | 0, _, _, output => output
  | fuel + 1, i, numAccum, output =>
    if numAccum = 0 then output
    else fakeExponentialAux numerator denominator fuel (i + 1)
      (numAccum * numerator / (denominator * i)) (output + numAccum)

/-- Modelled from the spec: see fakeExponentialAux. -/
def fakeExponential (factor numerator denominator : Nat) : Nat :=
  fakeExponentialAux numerator denominator 10000 1 (factor * denominator) 0 / denominator

/-- Modelled from the spec: blob gas price at a given excess blob gas, per
the EIP-4844 update formula quoted in spec section 4.4. -/
def GetBlobGasPrice (excessBlobGas : Nat) : Nat :=
  fakeExponential MIN_DATA_GASPRICE excessBlobGas BLOB_GASPRICE_UPDATE_FRACTION

/-- Modelled from the spec: search loop for the least excess blob gas (in
whole-blob increments) whose blob gas price reaches the given target price.
The function GetMinExcessBlobsForBlobGasPrice is referenced at tests.go
line 43 but its definition is not among the provided sources. -/
def minExcessSearch (targetPrice : Nat) : Nat → Nat → Nat → Nat
  | 0, excess, _ => excess
  | fuel + 1, excess, price =>
    if price < targetPrice then
      minExcessSearch targetPrice fuel (excess + GAS_PER_BLOB)
        (GetBlobGasPrice (excess + GAS_PER_BLOB))
    else excess

/-- Modelled from the spec: least excess blob gas reaching the target price. -/
def GetMinExcessBlobGasForBlobGasPrice (p : Nat) : Nat :=
  minExcessSearch p 1000 0 1

/-- Modelled from the spec: least number of excess blobs reaching the target
price (tests.go line 43 divides the excess blob gas by GAS_PER_BLOB). -/
def GetMinExcessBlobsForBlobGasPrice (p : Nat) : Nat :=
  GetMinExcessBlobGasForBlobGasPrice p / GAS_PER_BLOB

/-- Precalculated first data gas cost increase (tests.go line 43). -/
def DATA_GAS_COST_INCREMENT_EXCEED_BLOBS : Nat := GetMinExcessBlobsForBlobGasPrice 2

/-- Modelled from the spec (section 4.4): the EIP-4844 excess blob gas
update, next excess = max(0, prevExcess + usedBlobGas - targetBlobGas). -/
def nextExcessBlobGas (prevExcess usedBlobGas : Nat) : Nat :=
  if prevExcess + usedBlobGas < TARGET_BLOB_GAS_PER_BLOCK then 0
  else prevExcess + usedBlobGas - TARGET_BLOB_GAS_PER_BLOCK

/-! ## Blob lists (helper package, not among the provided sources) -/

/-- Modelled from the spec: helper.GetBlobList is not among the provided
sources; per spec section 3 BlobID is an opaque integer and per concrete
scenario 1 the list starting at 0 with count 3 is the BlobIDs 0,1,2 in
submission order, so the function enumerates count consecutive BlobIDs
from the given start. -/
def GetBlobList (start count : Nat) : List Nat :=
  (List.range count).map (fun i => start + i)

/-- Modelled from the spec: helper.GetBlobListByIndex is not among the
provided sources; modelled as the inclusive BlobID range from startIndex to
endIndex, descending when startIndex is greater than endIndex. The
out-of-order tables call it with arguments (TARGET_BLOBS_PER_BLOCK-1, 0),
which yields the reversal of the correct list; for the three-element list
used by the tables this is exactly the list with its first and last
entries transposed, matching concrete scenario 3 in the spec. -/
def GetBlobListByIndex (startIndex endIndex : Nat) : List Nat :=
  if startIndex ≤ endIndex then
    (List.range (endIndex - startIndex + 1)).map (fun i => startIndex + i)
  else
    ((List.range (startIndex - endIndex + 1)).map (fun i => endIndex + i)).reverse

/-- The list with its first and last entries transposed (used to state the
out-of-order corruption of concrete scenario 3). -/
def transposeFirstLast : List Nat → List Nat
  | [] => []
  | [a] => [a]
  | a :: rest => rest.getLastD a :: (rest.dropLast ++ [a])

/-! ## Test step records (cancun suite step types, embedded field-for-field
from their uses in tests.go; Go zero values are the Lean defaults) -/

inductive PayloadStatus where
  | Valid
  | Invalid
  | Syncing
deriving DecidableEq

/-- VersionedHashes customization: Blobs none models the Go nil slice,
some [] the empty slice; this absent-versus-empty distinction is
load-bearing for the negative tests (spec section 9). -/
structure VersionedHashes where
  Blobs : Option (List Nat) := none
  HashVersions : List Nat := []
deriving DecidableEq

/-- helper.CustomPayloadData fields used by the Cancun tables. A some field
models a Go non-nil pointer override, the Remove flags model the explicit
remove-this-field markers (spec section 9). The beacon root hash is
modelled as a Nat (the zero hash is 0). -/
structure CustomPayloadData where
  BlobGasUsed : Option Nat := none
  ExcessBlobGas : Option Nat := none
  ParentBeaconRoot : Option Nat := none
  RemoveExcessBlobGas : Bool := false
  RemoveBlobGasUsed : Bool := false
  RemoveParentBeaconRoot : Bool := false
deriving DecidableEq

structure NewPayloads where
  PayloadCount : Nat := 0
  ExpectedIncludedBlobCount : Nat := 0
  ExpectedBlobs : Option (List Nat) := none
  Version : Nat := 0
  VersionedHashes : Option VersionedHashes := none
  PayloadCustomizer : Option CustomPayloadData := none
  ExpectedError : Option Int := none
  ExpectedStatus : Option PayloadStatus := none
  GetPayloadDelay : Nat := 0
deriving DecidableEq

structure SendBlobTransactions where
  TransactionCount : Nat := 0
  BlobsPerTransaction : Nat := 0
  BlobTransactionMaxBlobGasCost : Option Nat := none
  BlobTransactionGasFeeCap : Option Nat := none
  BlobTransactionGasTipCap : Option Nat := none
  AccountIndex : Nat := 0
  ClientIndex : Nat := 0
  ReplaceTransactions : Bool := false
deriving DecidableEq

structure LaunchClients where
  SkipAddingToCLMock : Bool := false
  SkipConnectingToBootnode : Bool := false
deriving DecidableEq

structure SendModifiedLatestPayload where
  ClientID : Nat := 0
  VersionedHashes : Option VersionedHashes := none
  ExpectedError : Option Int := none
  ExpectedStatus : Option PayloadStatus := none
deriving DecidableEq

inductive TestStep where
  | newPayloads (s : NewPayloads)
  | sendBlobTransactions (s : SendBlobTransactions)
  | launchClients (s : LaunchClients)
  | sendModifiedLatestPayload (s : SendModifiedLatestPayload)
deriving DecidableEq

structure CancunBaseSpec where
  Name : String
  CancunForkHeight : Nat := 0
  TestSequence : List TestStep
deriving DecidableEq

/-! ## Embedded test tables (tests.go, Tests). Only tables relevant to the
verified claims are embedded; The About and ExpectationDescription free-text
fields are documentation strings and are not part of the embedding. -/

/-- tests.go lines 59-127. -/
def specBlobTxOnBlock1ShanghaiGenesis : CancunBaseSpec :=
  { Name := "Blob Transactions On Block 1, Shanghai Genesis"
    CancunForkHeight := 1
    TestSequence := [
      .newPayloads {},
      .sendBlobTransactions
        { TransactionCount := TARGET_BLOBS_PER_BLOCK,
          BlobTransactionMaxBlobGasCost := some 1 },
      .newPayloads
        { ExpectedIncludedBlobCount := TARGET_BLOBS_PER_BLOCK,
          ExpectedBlobs := some (GetBlobList 0 TARGET_BLOBS_PER_BLOCK) },
      .sendBlobTransactions
        { TransactionCount :=
            DATA_GAS_COST_INCREMENT_EXCEED_BLOBS /
              (MAX_BLOBS_PER_BLOCK - TARGET_BLOBS_PER_BLOCK) + 1,
          BlobsPerTransaction := MAX_BLOBS_PER_BLOCK,
          BlobTransactionMaxBlobGasCost := some 1 },
      .newPayloads
        { PayloadCount :=
            DATA_GAS_COST_INCREMENT_EXCEED_BLOBS /
              (MAX_BLOBS_PER_BLOCK - TARGET_BLOBS_PER_BLOCK),
          ExpectedIncludedBlobCount := MAX_BLOBS_PER_BLOCK },
      .newPayloads { ExpectedIncludedBlobCount := 0 },
      .newPayloads { ExpectedIncludedBlobCount := MAX_BLOBS_PER_BLOCK }
    ] }

/-- tests.go lines 129-186. -/
def specBlobTxOnBlock1CancunGenesis : CancunBaseSpec :=
  { Name := "Blob Transactions On Block 1, Cancun Genesis"
    CancunForkHeight := 0
    TestSequence := [
      .newPayloads {},
      .sendBlobTransactions
        { TransactionCount := TARGET_BLOBS_PER_BLOCK,
          BlobTransactionMaxBlobGasCost := some 1 },
      .newPayloads
        { ExpectedIncludedBlobCount := TARGET_BLOBS_PER_BLOCK,
          ExpectedBlobs := some (GetBlobList 0 TARGET_BLOBS_PER_BLOCK) },
      .sendBlobTransactions
        { TransactionCount :=
            DATA_GAS_COST_INCREMENT_EXCEED_BLOBS /
              (MAX_BLOBS_PER_BLOCK - TARGET_BLOBS_PER_BLOCK) + 1,
          BlobsPerTransaction := MAX_BLOBS_PER_BLOCK,
          BlobTransactionMaxBlobGasCost := some 1 },
      .newPayloads
        { PayloadCount :=
            DATA_GAS_COST_INCREMENT_EXCEED_BLOBS /
              (MAX_BLOBS_PER_BLOCK - TARGET_BLOBS_PER_BLOCK),
          ExpectedIncludedBlobCount := MAX_BLOBS_PER_BLOCK },
      .newPayloads { ExpectedIncludedBlobCount := 0 },
      .newPayloads { ExpectedIncludedBlobCount := MAX_BLOBS_PER_BLOCK }
    ] }

/-- tests.go lines 187-233. -/
def specBlobTxOrderingSingleAccount : CancunBaseSpec :=
  { Name := "Blob Transaction Ordering, Single Account"
    CancunForkHeight := 0
    TestSequence := [
      .sendBlobTransactions
        { TransactionCount := 5,
          BlobsPerTransaction := MAX_BLOBS_PER_BLOCK - 1,
          BlobTransactionMaxBlobGasCost := some 100 },
      .sendBlobTransactions
        { TransactionCount := MAX_BLOBS_PER_BLOCK + 1,
          BlobsPerTransaction := 1,
          BlobTransactionMaxBlobGasCost := some 100 },
      .newPayloads
        { PayloadCount := 4,
          ExpectedIncludedBlobCount := MAX_BLOBS_PER_BLOCK - 1 },
      .newPayloads
        { PayloadCount := 2,
          ExpectedIncludedBlobCount := MAX_BLOBS_PER_BLOCK }
    ] }

/-- tests.go lines 234-289. -/
def specBlobTxOrderingSingleAccount2 : CancunBaseSpec :=
  { Name := "Blob Transaction Ordering, Single Account 2"
    CancunForkHeight := 0
    TestSequence := [
      .sendBlobTransactions
        { TransactionCount := 5,
          BlobsPerTransaction := MAX_BLOBS_PER_BLOCK - 1,
          BlobTransactionMaxBlobGasCost := some 100 },
      .sendBlobTransactions
        { TransactionCount := 1,
          BlobsPerTransaction := 2,
          BlobTransactionMaxBlobGasCost := some 100 },
      .sendBlobTransactions
        { TransactionCount := MAX_BLOBS_PER_BLOCK - 2,
          BlobsPerTransaction := 1,
          BlobTransactionMaxBlobGasCost := some 100 },
      .newPayloads
        { PayloadCount := 5,
          ExpectedIncludedBlobCount := MAX_BLOBS_PER_BLOCK - 1 },
      .newPayloads
        { PayloadCount := 1,
          ExpectedIncludedBlobCount := MAX_BLOBS_PER_BLOCK }
    ] }

/-- tests.go lines 399-449. -/
def specReplaceBlobTransactions : CancunBaseSpec :=
  { Name := "Replace Blob Transactions"
    CancunForkHeight := 0
    TestSequence := [
      .sendBlobTransactions
        { TransactionCount := 1,
          BlobTransactionMaxBlobGasCost := some 1,
          BlobTransactionGasFeeCap := some 1000000000,
          BlobTransactionGasTipCap := some 1000000000 },
      .sendBlobTransactions
        { TransactionCount := 1,
          BlobTransactionMaxBlobGasCost := some 100,
          BlobTransactionGasFeeCap := some 10000000000,
          BlobTransactionGasTipCap := some 10000000000,
          ReplaceTransactions := true },
      .sendBlobTransactions
        { TransactionCount := 1,
          BlobTransactionMaxBlobGasCost := some 1000,
          BlobTransactionGasFeeCap := some 100000000000,
          BlobTransactionGasTipCap := some 100000000000,
          ReplaceTransactions := true },
      .sendBlobTransactions
        { TransactionCount := 1,
          BlobTransactionMaxBlobGasCost := some 10000,
          BlobTransactionGasFeeCap := some 1000000000000,
          BlobTransactionGasTipCap := some 1000000000000,
          ReplaceTransactions := true },
      .newPayloads
        { ExpectedIncludedBlobCount := 1,
          ExpectedBlobs := some [3] }
    ] }

/-! ### NewPayloadV3 before Cancun, negative tests (tests.go lines 540-715) -/

/-- tests.go lines 541-570. -/
def specPreCancunNilDataNilVHNilRoot : CancunBaseSpec :=
  { Name := "NewPayloadV3 Before Cancun, Nil Data Fields, Nil Versioned Hashes, Nil Beacon Root"
    CancunForkHeight := 2
    TestSequence := [
      .newPayloads
        { ExpectedIncludedBlobCount := 0,
          Version := 3,
          VersionedHashes := some { Blobs := none },
          ExpectedError := some INVALID_PARAMS_ERROR }
    ] }

/-- tests.go lines 571-598. -/
def specPreCancunNilExcessZeroBGUNilVHNilRoot : CancunBaseSpec :=
  { Name := "NewPayloadV3 Before Cancun, Nil ExcessBlobGas, 0x00 BlobGasUsed, Nil Versioned Hashes, Nil Beacon Root"
    CancunForkHeight := 2
    TestSequence := [
      .newPayloads
        { ExpectedIncludedBlobCount := 0,
          Version := 3,
          PayloadCustomizer := some { BlobGasUsed := some 0 },
          ExpectedError := some INVALID_PARAMS_ERROR }
    ] }

/-- tests.go lines 599-626. -/
def specPreCancunZeroExcessNilBGUNilVHNilRoot : CancunBaseSpec :=
  { Name := "NewPayloadV3 Before Cancun, 0x00 ExcessBlobGas, Nil BlobGasUsed, Nil Versioned Hashes, Nil Beacon Root"
    CancunForkHeight := 2
    TestSequence := [
      .newPayloads
        { ExpectedIncludedBlobCount := 0,
          Version := 3,
          PayloadCustomizer := some { ExcessBlobGas := some 0 },
          ExpectedError := some INVALID_PARAMS_ERROR }
    ] }

/-- tests.go lines 627-654. -/
def specPreCancunNilDataEmptyVHNilRoot : CancunBaseSpec :=
  { Name := "NewPayloadV3 Before Cancun, Nil Data Fields, Empty Array Versioned Hashes, Nil Beacon Root"
    CancunForkHeight := 2
    TestSequence := [
      .newPayloads
        { ExpectedIncludedBlobCount := 0,
          Version := 3,
          VersionedHashes := some { Blobs := some [] },
          ExpectedError := some INVALID_PARAMS_ERROR }
    ] }

/-- tests.go lines 655-682. -/
def specPreCancunNilDataNilVHZeroRoot : CancunBaseSpec :=
  { Name := "NewPayloadV3 Before Cancun, Nil Data Fields, Nil Versioned Hashes, Zero Beacon Root"
    CancunForkHeight := 2
    TestSequence := [
      .newPayloads
        { ExpectedIncludedBlobCount := 0,
          Version := 3,
          PayloadCustomizer := some { ParentBeaconRoot := some 0 },
          ExpectedError := some INVALID_PARAMS_ERROR }
    ] }

/-- tests.go lines 683-715. -/
def specPreCancunZeroDataEmptyVHZeroRoot : CancunBaseSpec :=
  { Name := "NewPayloadV3 Before Cancun, 0x00 Data Fields, Empty Array Versioned Hashes, Zero Beacon Root"
    CancunForkHeight := 2
    TestSequence := [
      .newPayloads
        { ExpectedIncludedBlobCount := 0,
          Version := 3,
          VersionedHashes := some { Blobs := some [] },
          PayloadCustomizer := some
            { ExcessBlobGas := some 0,
              BlobGasUsed := some 0,
              ParentBeaconRoot := some 0 },
          ExpectedError := some UNSUPPORTED_FORK_ERROR }
    ] }

/-- The six NewPayloadV3-before-Cancun tables, in source order. -/
def preCancunV3Specs : List CancunBaseSpec := [
  specPreCancunNilDataNilVHNilRoot,
  specPreCancunNilExcessZeroBGUNilVHNilRoot,
  specPreCancunZeroExcessNilBGUNilVHNilRoot,
  specPreCancunNilDataEmptyVHNilRoot,
  specPreCancunNilDataNilVHZeroRoot,
  specPreCancunZeroDataEmptyVHZeroRoot
]

/-! ### NewPayloadV3 versioned hashes, negative tests (tests.go lines 801-1042) -/

/-- tests.go lines 802-828. -/
def specVHMissingHash : CancunBaseSpec :=
  { Name := "NewPayloadV3 Versioned Hashes, Missing Hash"
    TestSequence := [
      .sendBlobTransactions
        { TransactionCount := TARGET_BLOBS_PER_BLOCK,
          BlobTransactionMaxBlobGasCost := some 1 },
      .newPayloads
        { ExpectedIncludedBlobCount := TARGET_BLOBS_PER_BLOCK,
          ExpectedBlobs := some (GetBlobList 0 TARGET_BLOBS_PER_BLOCK),
          VersionedHashes := some
            { Blobs := some (GetBlobList 0 (TARGET_BLOBS_PER_BLOCK - 1)) },
          ExpectedStatus := some .Invalid }
    ] }

/-- tests.go lines 829-857. -/
def specVHExtraHash : CancunBaseSpec :=
  { Name := "NewPayloadV3 Versioned Hashes, Extra Hash"
    TestSequence := [
      .sendBlobTransactions
        { TransactionCount := TARGET_BLOBS_PER_BLOCK,
          BlobTransactionMaxBlobGasCost := some 1 },
      .newPayloads
        { ExpectedIncludedBlobCount := TARGET_BLOBS_PER_BLOCK,
          ExpectedBlobs := some (GetBlobList 0 TARGET_BLOBS_PER_BLOCK),
          VersionedHashes := some
            { Blobs := some (GetBlobList 0 (TARGET_BLOBS_PER_BLOCK + 1)) },
          ExpectedStatus := some .Invalid }
    ] }

/-- tests.go lines 859-884. -/
def specVHOutOfOrder : CancunBaseSpec :=
  { Name := "NewPayloadV3 Versioned Hashes, Out of Order"
    TestSequence := [
      .sendBlobTransactions
        { TransactionCount := TARGET_BLOBS_PER_BLOCK,
          BlobTransactionMaxBlobGasCost := some 1 },
      .newPayloads
        { ExpectedIncludedBlobCount := TARGET_BLOBS_PER_BLOCK,
          ExpectedBlobs := some (GetBlobList 0 TARGET_BLOBS_PER_BLOCK),
          VersionedHashes := some
            { Blobs := some (GetBlobListByIndex (TARGET_BLOBS_PER_BLOCK - 1) 0) },
          ExpectedStatus := some .Invalid }
    ] }

/-- tests.go lines 886-911. -/
def specVHRepeatedHash : CancunBaseSpec :=
  { Name := "NewPayloadV3 Versioned Hashes, Repeated Hash"
    TestSequence := [
      .sendBlobTransactions
        { TransactionCount := TARGET_BLOBS_PER_BLOCK,
          BlobTransactionMaxBlobGasCost := some 1 },
      .newPayloads
        { ExpectedIncludedBlobCount := TARGET_BLOBS_PER_BLOCK,
          ExpectedBlobs := some (GetBlobList 0 TARGET_BLOBS_PER_BLOCK),
          VersionedHashes := some
            { Blobs := some (GetBlobList 0 TARGET_BLOBS_PER_BLOCK ++
                [TARGET_BLOBS_PER_BLOCK - 1]) },
          ExpectedStatus := some .Invalid }
    ] }

/-- tests.go lines 913-938. -/
def specVHIncorrectHash : CancunBaseSpec :=
  { Name := "NewPayloadV3 Versioned Hashes, Incorrect Hash"
    TestSequence := [
      .sendBlobTransactions
        { TransactionCount := TARGET_BLOBS_PER_BLOCK,
          BlobTransactionMaxBlobGasCost := some 1 },
      .newPayloads
        { ExpectedIncludedBlobCount := TARGET_BLOBS_PER_BLOCK,
          ExpectedBlobs := some (GetBlobList 0 TARGET_BLOBS_PER_BLOCK),
          VersionedHashes := some
            { Blobs := some (GetBlobList 0 (TARGET_BLOBS_PER_BLOCK - 1) ++
                [TARGET_BLOBS_PER_BLOCK]) },
          ExpectedStatus := some .Invalid }
    ] }

/-- tests.go lines 939-965. -/
def specVHIncorrectVersion : CancunBaseSpec :=
  { Name := "NewPayloadV3 Versioned Hashes, Incorrect Version"
    TestSequence := [
      .sendBlobTransactions
        { TransactionCount := TARGET_BLOBS_PER_BLOCK,
          BlobTransactionMaxBlobGasCost := some 1 },
      .newPayloads
        { ExpectedIncludedBlobCount := TARGET_BLOBS_PER_BLOCK,
          ExpectedBlobs := some (GetBlobList 0 TARGET_BLOBS_PER_BLOCK),
          VersionedHashes := some
            { Blobs := some (GetBlobList 0 TARGET_BLOBS_PER_BLOCK),
              HashVersions := [BLOB_COMMITMENT_VERSION_KZG,
                BLOB_COMMITMENT_VERSION_KZG + 1] },
          ExpectedStatus := some .Invalid }
    ] }

/-- tests.go lines 967-992. -/
def specVHNilHashes : CancunBaseSpec :=
  { Name := "NewPayloadV3 Versioned Hashes, Nil Hashes"
    TestSequence := [
      .sendBlobTransactions
        { TransactionCount := TARGET_BLOBS_PER_BLOCK,
          BlobTransactionMaxBlobGasCost := some 1 },
      .newPayloads
        { ExpectedIncludedBlobCount := TARGET_BLOBS_PER_BLOCK,
          ExpectedBlobs := some (GetBlobList 0 TARGET_BLOBS_PER_BLOCK),
          VersionedHashes := some { Blobs := none },
          ExpectedError := some INVALID_PARAMS_ERROR }
    ] }

/-- tests.go lines 994-1019. -/
def specVHEmptyHashes : CancunBaseSpec :=
  { Name := "NewPayloadV3 Versioned Hashes, Empty Hashes"
    TestSequence := [
      .sendBlobTransactions
        { TransactionCount := TARGET_BLOBS_PER_BLOCK,
          BlobTransactionMaxBlobGasCost := some 1 },
      .newPayloads
        { ExpectedIncludedBlobCount := TARGET_BLOBS_PER_BLOCK,
          ExpectedBlobs := some (GetBlobList 0 TARGET_BLOBS_PER_BLOCK),
          VersionedHashes := some { Blobs := some [] },
          ExpectedStatus := some .Invalid }
    ] }

/-- tests.go lines 1021-1042. -/
def specVHNonEmptyHashes : CancunBaseSpec :=
  { Name := "NewPayloadV3 Versioned Hashes, Non-Empty Hashes"
    TestSequence := [
      .newPayloads
        { ExpectedIncludedBlobCount := 0,
          ExpectedBlobs := some [],
          VersionedHashes := some { Blobs := some [0] },
          ExpectedStatus := some .Invalid }
    ] }

/-! ### NewPayloadV3 versioned hashes on syncing clients (tests.go lines 1044-1347) -/

/-- Common first steps of the syncing-client versioned-hash tables: a payload
so the parent is unknown to the secondary client, the blob transactions, and
the payload whose hashes are then corrupted (tests.go, each syncing table). -/
def syncingVHSetup : List TestStep := [
  .newPayloads {},
  .sendBlobTransactions
    { TransactionCount := TARGET_BLOBS_PER_BLOCK,
      BlobTransactionMaxBlobGasCost := some 1 },
  .newPayloads
    { ExpectedIncludedBlobCount := TARGET_BLOBS_PER_BLOCK,
      ExpectedBlobs := some (GetBlobList 0 TARGET_BLOBS_PER_BLOCK) },
  .launchClients
    { SkipAddingToCLMock := true,
      SkipConnectingToBootnode := true }
]

/-- tests.go lines 1045-1078. -/
def specVHMissingHashSyncing : CancunBaseSpec :=
  { Name := "NewPayloadV3 Versioned Hashes, Missing Hash (Syncing)"
    TestSequence := syncingVHSetup ++ [
      .sendModifiedLatestPayload
        { ClientID := 1,
          VersionedHashes := some
            { Blobs := some (GetBlobList 0 (TARGET_BLOBS_PER_BLOCK - 1)) },
          ExpectedStatus := some .Invalid }
    ] }

/-- tests.go lines 1079-1114. -/
def specVHExtraHashSyncing : CancunBaseSpec :=
  { Name := "NewPayloadV3 Versioned Hashes, Extra Hash (Syncing)"
    TestSequence := syncingVHSetup ++ [
      .sendModifiedLatestPayload
        { ClientID := 1,
          VersionedHashes := some
            { Blobs := some (GetBlobList 0 (TARGET_BLOBS_PER_BLOCK + 1)) },
          ExpectedStatus := some .Invalid }
    ] }

/-- tests.go lines 1116-1147. -/
def specVHOutOfOrderSyncing : CancunBaseSpec :=
  { Name := "NewPayloadV3 Versioned Hashes, Out of Order (Syncing)"
    TestSequence := syncingVHSetup ++ [
      .sendModifiedLatestPayload
        { ClientID := 1,
          VersionedHashes := some
            { Blobs := some (GetBlobListByIndex (TARGET_BLOBS_PER_BLOCK - 1) 0) },
          ExpectedStatus := some .Invalid }
    ] }

/-- tests.go lines 1149-1181. -/
def specVHRepeatedHashSyncing : CancunBaseSpec :=
  { Name := "NewPayloadV3 Versioned Hashes, Repeated Hash (Syncing)"
    TestSequence := syncingVHSetup ++ [
      .sendModifiedLatestPayload
        { ClientID := 1,
          VersionedHashes := some
            { Blobs := some (GetBlobList 0 TARGET_BLOBS_PER_BLOCK ++
                [TARGET_BLOBS_PER_BLOCK - 1]) },
          ExpectedStatus := some .Invalid }
    ] }

/-- tests.go lines 1183-1215. -/
def specVHIncorrectHashSyncing : CancunBaseSpec :=
  { Name := "NewPayloadV3 Versioned Hashes, Incorrect Hash (Syncing)"
    TestSequence := syncingVHSetup ++ [
      .sendModifiedLatestPayload
        { ClientID := 1,
          VersionedHashes := some
            { Blobs := some (GetBlobList 0 (TARGET_BLOBS_PER_BLOCK - 1) ++
                [TARGET_BLOBS_PER_BLOCK]) },
          ExpectedStatus := some .Invalid }
    ] }

/-- tests.go lines 1216-1249. -/
def specVHIncorrectVersionSyncing : CancunBaseSpec :=
  { Name := "NewPayloadV3 Versioned Hashes, Incorrect Version (Syncing)"
    TestSequence := syncingVHSetup ++ [
      .sendModifiedLatestPayload
        { ClientID := 1,
          VersionedHashes := some
            { Blobs := some (GetBlobList 0 TARGET_BLOBS_PER_BLOCK),
              HashVersions := [BLOB_COMMITMENT_VERSION_KZG,
                BLOB_COMMITMENT_VERSION_KZG + 1] },
          ExpectedStatus := some .Invalid }
    ] }

/-- tests.go lines 1251-1283. -/
def specVHNilHashesSyncing : CancunBaseSpec :=
  { Name := "NewPayloadV3 Versioned Hashes, Nil Hashes (Syncing)"
    TestSequence := syncingVHSetup ++ [
      .sendModifiedLatestPayload
        { ClientID := 1,
          VersionedHashes := some { Blobs := none },
          ExpectedError := some INVALID_PARAMS_ERROR }
    ] }

/-- tests.go lines 1285-1317. -/
def specVHEmptyHashesSyncing : CancunBaseSpec :=
  { Name := "NewPayloadV3 Versioned Hashes, Empty Hashes (Syncing)"
    TestSequence := syncingVHSetup ++ [
      .sendModifiedLatestPayload
        { ClientID := 1,
          VersionedHashes := some { Blobs := some [] },
          ExpectedStatus := some .Invalid }
    ] }

/-- tests.go lines 1319-1347. -/
def specVHNonEmptyHashesSyncing : CancunBaseSpec :=
  { Name := "NewPayloadV3 Versioned Hashes, Non-Empty Hashes (Syncing)"
    TestSequence := [
      .newPayloads {},
      .newPayloads
        { ExpectedIncludedBlobCount := 0,
          ExpectedBlobs := some [] },
      .launchClients
        { SkipAddingToCLMock := true,
          SkipConnectingToBootnode := true },
      .sendModifiedLatestPayload
        { ClientID := 1,
          VersionedHashes := some { Blobs := some [0] },
          ExpectedStatus := some .Invalid }
    ] }

/-- All versioned-hash corruption tables (the nine direct ones of tests.go
lines 801-1042 and the nine syncing ones of lines 1044-1347). -/
def vhCorruptionSpecs : List CancunBaseSpec := [
  specVHMissingHash, specVHExtraHash, specVHOutOfOrder, specVHRepeatedHash,
  specVHIncorrectHash, specVHIncorrectVersion, specVHNilHashes,
  specVHEmptyHashes, specVHNonEmptyHashes,
  specVHMissingHashSyncing, specVHExtraHashSyncing, specVHOutOfOrderSyncing,
  specVHRepeatedHashSyncing, specVHIncorrectHashSyncing,
  specVHIncorrectVersionSyncing, specVHNilHashesSyncing,
  specVHEmptyHashesSyncing, specVHNonEmptyHashesSyncing
]

/-! ## Step semantics used by the test expectations -/

/-- Modelled from the spec: a SendBlobTransactions step whose
BlobsPerTransaction field is the Go zero value 0 sends one-blob
transactions (spec concrete scenario 1: the tables that leave the field
unset send one-blob transactions). -/
def blobsPerTxEffective (s : SendBlobTransactions) : Nat :=
  if s.BlobsPerTransaction = 0 then 1 else s.BlobsPerTransaction

/-- Modelled from the spec: a NewPayloads step whose PayloadCount field is
the Go zero value 0 produces a single payload (spec section 4.6,
produce-payloads N times; the tables comment a bare NewPayloads step as
producing one payload). -/
def payloadCountEffective (n : NewPayloads) : Nat :=
  if n.PayloadCount = 0 then 1 else n.PayloadCount

/-- Blob counts of the transactions sent by a test sequence, in submission
(and hence single-account nonce) order. -/
def sentBlobSizes : List TestStep → List Nat
  | [] => []
  | .sendBlobTransactions s :: rest =>
    List.replicate s.TransactionCount (blobsPerTxEffective s) ++ sentBlobSizes rest
  | _ :: rest => sentBlobSizes rest

/-- Expected per-payload blob counts declared by the NewPayloads steps of a
test sequence, one entry per produced payload, in order. -/
def expectedPayloadBlobCounts : List TestStep → List Nat
  | [] => []
  | .newPayloads n :: rest =>
    List.replicate (payloadCountEffective n) n.ExpectedIncludedBlobCount ++
      expectedPayloadBlobCounts rest
  | _ :: rest => expectedPayloadBlobCounts rest

/-- Modelled from the spec: the payload-building ordering policy of
section 4.4 restricted to a single account whose transactions all fit the
price: transactions are taken in strict nonce (submission) order, a payload
is closed as soon as the next transaction does not fit the per-block blob
maximum, and no later transaction may jump ahead of an earlier one.
Input: blobs per transaction in nonce order; output: blobs per payload. -/
def fifoPackAux (cap : Nat) : List Nat → Nat → List Nat
  | [], acc => if acc = 0 then [] else [acc]
  | b :: bs, acc =>
    if acc + b ≤ cap then fifoPackAux cap bs (acc + b)
    else acc :: fifoPackAux cap bs b

/-- Modelled from the spec: see fifoPackAux. -/
def fifoPack (cap : Nat) (bs : List Nat) : List Nat := fifoPackAux cap bs 0

/-- Modelled from the spec: the payload index assigned to each transaction
by the ordering policy of section 4.4 (same packing as fifoPackAux).
Input: blobs per transaction in nonce order; output: the payload index of
each transaction, in nonce order. -/
def fifoAssignAux (cap : Nat) : List Nat → Nat → Nat → List Nat
  | [], _, _ => []
  | b :: bs, acc, idx =>
    if acc + b ≤ cap then idx :: fifoAssignAux cap bs (acc + b) idx
    else (idx + 1) :: fifoAssignAux cap bs b (idx + 1)

/-- Modelled from the spec: see fifoAssignAux. -/
def fifoAssign (cap : Nat) (bs : List Nat) : List Nat := fifoAssignAux cap bs 0 0

/-- Excess blob gas after k payloads each carrying MAX_BLOBS_PER_BLOCK
blobs, starting from zero excess, per the update formula of spec
section 4.4. -/
def excessAfterMaxBlobPayloads : Nat → Nat
  | 0 => 0
  | k + 1 => nextExcessBlobGas (excessAfterMaxBlobPayloads k) MAX_BLOB_GAS_PER_BLOCK

/-! ## Outcome extraction from the embedded tables -/

/-- The versioned-hash customization of a step together with the expected
outcome attached to that step. -/
structure VHOutcome where
  Blobs : Option (List Nat)
  HashVersions : List Nat
  ExpectedStatus : Option PayloadStatus
  ExpectedError : Option Int
deriving DecidableEq

/-- The outcome attached to a step that customizes the versioned hashes
(either a NewPayloads step with a VersionedHashes override, or a direct
SendModifiedLatestPayload to a specific client). -/
def stepVHOutcome : TestStep → Option VHOutcome
  | .newPayloads n =>
    match n.VersionedHashes with
    | some vh => some ⟨vh.Blobs, vh.HashVersions, n.ExpectedStatus, n.ExpectedError⟩
    | none => none
  | .sendModifiedLatestPayload s =>
    match s.VersionedHashes with
    | some vh => some ⟨vh.Blobs, vh.HashVersions, s.ExpectedStatus, s.ExpectedError⟩
    | none => none
  | _ => none

/-- All versioned-hash-customizing outcomes of a table. -/
def vhOutcomes (s : CancunBaseSpec) : List VHOutcome :=
  s.TestSequence.filterMap stepVHOutcome

/-- The NewPayloads steps of a table. -/
def newPayloadSteps (s : CancunBaseSpec) : List NewPayloads :=
  s.TestSequence.filterMap fun st =>
    match st with
    | .newPayloads n => some n
    | _ => none

/-- Modelled from the spec: before the Cancun fork the payload built by the
mock carries no Cancun fields (spec section 4.4(c): blob fields and beacon
root are mandatory only from the blob-carrying fork onward), so in a
pre-Cancun NewPayloadV3 table a required Cancun field is present in the
call if and only if the table injects it: the versioned-hash list via a
non-nil Blobs customization, and the two data fields and the beacon root
via the payload customizer (spec section 9, set-or-omit override fields). -/
def preCancunAllFieldsPresent (n : NewPayloads) : Bool :=
  (match n.VersionedHashes with
   | some vh => vh.Blobs.isSome
   | none => false) &&
  (match n.PayloadCustomizer with
   | some c =>
     c.ExcessBlobGas.isSome && c.BlobGasUsed.isSome && c.ParentBeaconRoot.isSome
   | none => false)

/-! ## JSON model for the rpc-compat response comparison
(simulators/ethereum/rpc-compat/main.go)

JSON documents are modelled structurally; gjson path lookups and sjson
path deletions and sets are modelled on that structure. Two modelling
notes, neither of which affects the verified properties:
the gjson String() coercion of composite values (arrays and objects)
returns their raw JSON text in Go and is modelled as the empty string here
(it is only applied to address fields, which are JSON strings); and the
go-ethereum address checksumming common.HexToAddress(s).Hex() is an
external library function, threaded through the definitions as an
explicit parameter, so every theorem below holds for an arbitrary
checksum function. -/

inductive Json where
  | null : Json
  | jbool : Bool → Json
  | jnum : Int → Json
  | jstr : String → Json
  | jarr : List Json → Json
  | jobj : List (String × Json) → Json

mutual

def Json.deq : (a b : Json) → Decidable (a = b)
  | .null, .null => isTrue rfl
  | .jbool a, .jbool b =>
    match decEq a b with
    | isTrue h => isTrue (by rw [h])
    | isFalse h => isFalse (by simp [h])
  | .jnum a, .jnum b =>
    match decEq a b with
    | isTrue h => isTrue (by rw [h])
    | isFalse h => isFalse (by simp [h])
  | .jstr a, .jstr b =>
    match decEq a b with
    | isTrue h => isTrue (by rw [h])
    | isFalse h => isFalse (by simp [h])
  | .jarr xs, .jarr ys =>
    match Json.deqList xs ys with
    | isTrue h => isTrue (by rw [h])
    | isFalse h => isFalse (by simp [h])
  | .jobj fs, .jobj gs =>
    match Json.deqObj fs gs with
    | isTrue h => isTrue (by rw [h])
    | isFalse h => isFalse (by simp [h])
  | .null, .jbool _ => isFalse (fun h => Json.noConfusion h)
  | .null, .jnum _ => isFalse (fun h => Json.noConfusion h)
  | .null, .jstr _ => isFalse (fun h => Json.noConfusion h)
  | .null, .jarr _ => isFalse (fun h => Json.noConfusion h)
  | .null, .jobj _ => isFalse (fun h => Json.noConfusion h)
  | .jbool _, .null => isFalse (fun h => Json.noConfusion h)
  | .jbool _, .jnum _ => isFalse (fun h => Json.noConfusion h)
  | .jbool _, .jstr _ => isFalse (fun h => Json.noConfusion h)
  | .jbool _, .jarr _ => isFalse (fun h => Json.noConfusion h)
  | .jbool _, .jobj _ => isFalse (fun h => Json.noConfusion h)
  | .jnum _, .null => isFalse (fun h => Json.noConfusion h)
  | .jnum _, .jbool _ => isFalse (fun h => Json.noConfusion h)
  | .jnum _, .jstr _ => isFalse (fun h => Json.noConfusion h)
  | .jnum _, .jarr _ => isFalse (fun h => Json.noConfusion h)
  | .jnum _, .jobj _ => isFalse (fun h => Json.noConfusion h)
  | .jstr _, .null => isFalse (fun h => Json.noConfusion h)
  | .jstr _, .jbool _ => isFalse (fun h => Json.noConfusion h)
  | .jstr _, .jnum _ => isFalse (fun h => Json.noConfusion h)
  | .jstr _, .jarr _ => isFalse (fun h => Json.noConfusion h)
  | .jstr _, .jobj _ => isFalse (fun h => Json.noConfusion h)
  | .jarr _, .null => isFalse (fun h => Json.noConfusion h)
  | .jarr _, .jbool _ => isFalse (fun h => Json.noConfusion h)
  | .jarr _, .jnum _ => isFalse (fun h => Json.noConfusion h)
  | .jarr _, .jstr _ => isFalse (fun h => Json.noConfusion h)
  | .jarr _, .jobj _ => isFalse (fun h => Json.noConfusion h)
  | .jobj _, .null => isFalse (fun h => Json.noConfusion h)
  | .jobj _, .jbool _ => isFalse (fun h => Json.noConfusion h)
  | .jobj _, .jnum _ => isFalse (fun h => Json.noConfusion h)
  | .jobj _, .jstr _ => isFalse (fun h => Json.noConfusion h)
  | .jobj _, .jarr _ => isFalse (fun h => Json.noConfusion h)

def Json.deqList : (a b : List Json) → Decidable (a = b)
  | [], [] => isTrue rfl
  | [], _ :: _ => isFalse (fun h => List.noConfusion h)
  | _ :: _, [] => isFalse (fun h => List.noConfusion h)
  | x :: xs, y :: ys =>
    match Json.deq x y with
    | isTrue h1 =>
      match Json.deqList xs ys with
      | isTrue h2 => isTrue (by rw [h1, h2])
      | isFalse h2 => isFalse (by simp [h2])
    | isFalse h1 => isFalse (by simp [h1])

def Json.deqObj : (a b : List (String × Json)) → Decidable (a = b)
  | [], [] => isTrue rfl
  | [], _ :: _ => isFalse (fun h => List.noConfusion h)
  | _ :: _, [] => isFalse (fun h => List.noConfusion h)
  | (k1, v1) :: xs, (k2, v2) :: ys =>
    match decEq k1 k2 with
    | isTrue hk =>
      match Json.deq v1 v2 with
      | isTrue h1 =>
        match Json.deqObj xs ys with
        | isTrue h2 => isTrue (by rw [hk, h1, h2])
        | isFalse h2 => isFalse (by simp [h2])
      | isFalse h1 => isFalse (by simp [h1])
    | isFalse hk => isFalse (by simp [hk])

end

instance : DecidableEq Json := Json.deq

/-- One segment of a gjson/sjson path: an object key or an array index. -/
inductive PathSeg where
  | key (k : String)
  | idx (i : Nat)
deriving DecidableEq

/-- gjson.Get: resolve a path in a document. -/
def jget (j : Json) (p : List PathSeg) : Option Json :=
  match j, p with
  | j, [] => some j
  | .jobj fs, .key k :: rest =>
    match fs.lookup k with
    | some v => jget v rest
    | none => none
  | .jarr xs, .idx i :: rest =>
    match xs.get? i with
    | some v => jget v rest
    | none => none
  | _, _ => none

/-- gjson Result.Exists(). -/
def jexists (j : Json) (p : List PathSeg) : Bool :=
  (jget j p).isSome

/-- sjson.Delete: remove the value at a path; no-op when the path does not
resolve. -/
def jdel (j : Json) (p : List PathSeg) : Json :=
  match j, p with
  | .jobj fs, [.key k] => .jobj (fs.filter fun q => !(q.1 == k))
  | .jobj fs, .key k :: rest =>
    .jobj (fs.map fun q => if q.1 == k then (q.1, jdel q.2 rest) else q)
  | .jarr xs, [.idx i] => .jarr (xs.eraseIdx i)
  | .jarr xs, .idx i :: rest =>
    match xs.get? i with
    | some x => .jarr (xs.set i (jdel x rest))
    | none => .jarr xs
  | j, _ => j

/-- sjson.Set for the object-key paths the source uses (result.from and
result.to); missing intermediate objects are created, and a non-object
value on the path is replaced by an object, as sjson does. Array-index
segments are never set by the source and leave the document unchanged. -/
def jset (j : Json) (p : List PathSeg) (v : Json) : Json :=
  match p with
  | [] => v
  | .key k :: rest =>
    match j with
    | .jobj fs =>
      if (fs.lookup k).isSome then
        .jobj (fs.map fun q => if q.1 == k then (q.1, jset q.2 rest v) else q)
      else
        .jobj (fs ++ [(k, jset (.jobj []) rest v)])
    | _ => .jobj [(k, jset (.jobj []) rest v)]
  | .idx _ :: _ => j

/-- gjson Result.String(): the Go string coercion of a JSON value
(empty string for a missing value; composite values modelled as empty,
see the module note above). -/
def jgetString (j : Json) (p : List PathSeg) : String :=
  match jget j p with
  | some (.jstr s) => s
  | some (.jnum n) => toString n
  | some (.jbool b) => if b then "true" else "false"
  | some .null => ""
  | some (.jarr _) => ""
  | some (.jobj _) => ""
  | none => ""

/-- gjson Result.Array(): the element list of an array value; a missing or
null value gives the empty list and any other value a one-element list. -/
def jarray (j : Json) (p : List PathSeg) : List Json :=
  match jget j p with
  | some (.jarr xs) => xs
  | some .null => []
  | some x => [x]
  | none => []

/-- main.go deleteField: remove the field from the JSON document when it
exists. -/
def deleteField (data : Json) (field : List PathSeg) : Json :=
  if jexists data field then jdel data field else data

/-- main.go deleteFields: remove each of the fields in turn. -/
def deleteFields (data : Json) (fields : List (List PathSeg)) : Json :=
  fields.foldl deleteField data

/-- main.go line 22. -/
def EMPTY_ROOT : String := "0x56e81f171bcc55a6ff8345e692c0f86e5b48e01b996cadc001622fb5e363b421"

/-- main.go cleanTransactionData lines 266-300, one side: remove the
blockHash of the transaction result of this document, then replace its
from and to address fields (read before either is written, as in the
source) with their checksummed form when non-empty. -/
def txAddressClean (checksum : String → String) (d : Json) : Json :=
  let d := deleteField d [.key "result", .key "blockHash"]
  let fromS := jgetString d [.key "result", .key "from"]
  let toS := jgetString d [.key "result", .key "to"]
  let d :=
    if fromS ≠ "" then
      jset d [.key "result", .key "from"] (.jstr (checksum fromS))
    else d
  let d :=
    if toS ≠ "" then
      jset d [.key "result", .key "to"] (.jstr (checksum toS))
    else d
  d

/-- main.go cleanTransactionData: remove the blockHash of a transaction
result and checksum its from and to address fields, applied identically to
the response and the expected data. -/
def cleanTransactionData (checksum : String → String) (resp expectedData : Json) :
    Json × Json :=
  (txAddressClean checksum resp, txAddressClean checksum expectedData)

/-- main.go cleanReceiptData lines 306-316, one side of the loop: remove
the blockHash of every log of the receipt result of this document. -/
def logsBlockHashClean (d : Json) : Json :=
  (List.range (jarray d [.key "result", .key "logs"]).length).foldl
    (fun d i => deleteField d [.key "result", .key "logs", .idx i, .key "blockHash"]) d

/-- main.go cleanReceiptData: remove the blockHash of every log of a
receipt result on both sides when both sides carry logs. -/
def cleanReceiptData (resp expectedData : Json) : Json × Json :=
  if jexists resp [.key "result", .key "logs"] &&
      jexists expectedData [.key "result", .key "logs"] then
    (logsBlockHashClean resp, logsBlockHashClean expectedData)
  else (resp, expectedData)

/-- main.go cleanBlockData: the block-result fields removed for Kakarot. -/
def kakarotBlockFields : List (List PathSeg) := [
  [.key "result", .key "hash"],
  [.key "result", .key "parentHash"],
  [.key "result", .key "timestamp"],
  [.key "result", .key "baseFeePerGas"],
  [.key "result", .key "difficulty"],
  [.key "result", .key "gasLimit"],
  [.key "result", .key "miner"],
  [.key "result", .key "size"],
  [.key "result", .key "stateRoot"],
  [.key "result", .key "totalDifficulty"],
  [.key "result", .key "withdrawals"]
]

/-- main.go cleanBlockData lines 206-225: the fields to delete, appending
the withdrawals root when the expected data carries one differing from the
empty root. -/
def blockFieldsFor (expectedData : Json) : List (List PathSeg) :=
  let fields := kakarotBlockFields
  if jexists expectedData [.key "result", .key "withdrawalsRoot"] then
    if jgetString expectedData [.key "result", .key "withdrawalsRoot"] ≠ EMPTY_ROOT then
      fields ++ [[.key "result", .key "withdrawalsRoot"]]
    else fields
  else fields

/-- main.go cleanBlockData lines 230-240, one side of the loop: remove the
blockHash of every transaction of the block result of this document. -/
def txBlockHashClean (d : Json) : Json :=
  (List.range (jarray d [.key "result", .key "transactions"]).length).foldl
    (fun d i =>
      deleteField d [.key "result", .key "transactions", .idx i, .key "blockHash"]) d

/-- main.go cleanBlockData: remove the Kakarot block fields (plus the
withdrawals root when the expected one is not the empty root) from both
sides, then remove the blockHash of every transaction of the block on each
side. -/
def cleanBlockData (resp expectedData : Json) : Json × Json :=
  let fields := blockFieldsFor expectedData
  let resp := deleteFields resp fields
  let expectedData := deleteFields expectedData fields
  if jexists resp [.key "result", .key "transactions"] &&
      jexists expectedData [.key "result", .key "transactions"] then
    (txBlockHashClean resp, txBlockHashClean expectedData)
  else (resp, expectedData)

/-- main.go cleanReceiptsData lines 248-259, one side of the loop: remove
blockHash, cumulativeGasUsed and gasUsed from every element of the
receipt-list result of this document. -/
def receiptsGasClean (d : Json) : Json :=
  (List.range (jarray d [.key "result"]).length).foldl
    (fun d i => deleteFields d [
      [.key "result", .idx i, .key "blockHash"],
      [.key "result", .idx i, .key "cumulativeGasUsed"],
      [.key "result", .idx i, .key "gasUsed"]]) d

/-- main.go cleanReceiptsData: remove blockHash, cumulativeGasUsed and
gasUsed from every element of a receipt-list result, on each side. -/
def cleanReceiptsData (resp expectedData : Json) : Json × Json :=
  (receiptsGasClean resp, receiptsGasClean expectedData)

/-- main.go cleanKakarot: remove error.data from both sides when both carry
an error object, then apply the transaction, receipt, block and
receipt-list cleaning. -/
def cleanKakarot (checksum : String → String) (resp expectedData : Json) :
    Json × Json :=
  let pair :=
    if jexists resp [.key "error"] && jexists expectedData [.key "error"] then
      (jdel resp [.key "error", .key "data"], jdel expectedData [.key "error", .key "data"])
    else (resp, expectedData)
  let pair := cleanTransactionData checksum pair.1 pair.2
  let pair := cleanReceiptData pair.1 pair.2
  let pair := cleanBlockData pair.1 pair.2
  let pair := cleanReceiptsData pair.1 pair.2
  pair

/-- main.go runTest lines 122-127: the error redaction applies exactly when
an error is expected and an error is returned by the client. -/
def errorRedacted (resp expectedData : Json) : Bool :=
  jexists resp [.key "error"] && jexists expectedData [.key "error"]

/-- main.go runTest lines 122-127: remove error.message from both the
response and the expected data when both carry an error object. -/
def redactErrorMessages (resp expectedData : Json) : Json × Json :=
  if errorRedacted resp expectedData then
    (jdel resp [.key "error", .key "message"], jdel expectedData [.key "error", .key "message"])
  else (resp, expectedData)

/-- main.go runTest lines 120-152: the response comparison. The test case
fails on this response exactly when, after the error-message redaction and
the Kakarot cleaning, the response differs from the expected data
(gojsondiff Modified). -/
def responseComparisonFails (checksum : String → String) (resp expectedData : Json) :
    Prop :=
  let pair := redactErrorMessages resp expectedData
  let pair := cleanKakarot checksum pair.1 pair.2
  pair.1 ≠ pair.2

instance (checksum : String → String) (resp expectedData : Json) :
    Decidable (responseComparisonFails checksum resp expectedData) := by
  unfold responseComparisonFails
  exact instDecidableNot

/-- The gas tip caps of the transactions sent by a sequence, one entry per
SendBlobTransactions step, in order (none when the step leaves the field at
its Go zero value). -/
def sentTipCaps : List TestStep → List (Option Nat)
  | [] => []
  | .sendBlobTransactions s :: rest => s.BlobTransactionGasTipCap :: sentTipCaps rest
  | _ :: rest => sentTipCaps rest

/-- The replacement flags of the transactions sent by a sequence, one entry
per SendBlobTransactions step, in order. -/
def sentReplaceFlags : List TestStep → List Bool
  | [] => []
  | .sendBlobTransactions s :: rest => s.ReplaceTransactions :: sentReplaceFlags rest
  | _ :: rest => sentReplaceFlags rest

/-! # Theorems

Helper lemmas first (shared), then one theorem per verified claim with its
witness where the theorem carries hypotheses. -/

/-! ## FIFO packing lemmas -/

theorem fifoAssignAux_le (cap : Nat) (bs : List Nat) :
    ∀ acc idx, ∀ x ∈ fifoAssignAux cap bs acc idx, idx ≤ x := by
  induction bs with
  | nil => intro acc idx x hx; simp [fifoAssignAux] at hx
  | cons b rest ih =>
    intro acc idx x hx
    simp only [fifoAssignAux] at hx
    split at hx
    · rcases List.mem_cons.mp hx with h | h
      · omega
      · exact ih _ _ x h
    · rcases List.mem_cons.mp hx with h | h
      · omega
      · exact Nat.le_of_succ_le (ih _ _ x h)

theorem fifoAssignAux_pairwise (cap : Nat) (bs : List Nat) :
    ∀ acc idx, List.Pairwise (· ≤ ·) (fifoAssignAux cap bs acc idx) := by
  induction bs with
  | nil => intro acc idx; simp [fifoAssignAux]
  | cons b rest ih =>
    intro acc idx
    simp only [fifoAssignAux]
    split
    · exact List.Pairwise.cons (fun x hx => fifoAssignAux_le cap rest _ _ x hx) (ih _ _)
    · exact List.Pairwise.cons (fun x hx => fifoAssignAux_le cap rest _ _ x hx) (ih _ _)

theorem fifoAssign_pairwise (cap : Nat) (bs : List Nat) :
    List.Pairwise (· ≤ ·) (fifoAssign cap bs) :=
  fifoAssignAux_pairwise cap bs 0 0

/-! ## JSON path lemmas for the rpc-compat comparison -/

theorem lookup_filter_ne (a k : String) (fs : List (String × Json)) (h : a ≠ k) :
    (fs.filter fun q => !(q.1 == k)).lookup a = fs.lookup a := by
  induction fs with
  | nil => rfl
  | cons q rest ih =>
    by_cases hq : q.1 = k
    · have h1 : (q.1 == k) = true := beq_iff_eq.mpr hq
      have ha : (a == q.1) = false := by
        rw [beq_eq_false_iff_ne, hq]; exact h
      simp [List.filter, h1, List.lookup, ha, ih]
    · have h1 : (q.1 == k) = false := by rw [beq_eq_false_iff_ne]; exact hq
      simp only [List.filter, h1, Bool.not_false, List.lookup]
      cases hcmp : a == q.1 with
      | true => rfl
      | false => exact ih

theorem lookup_isSome_map_keyfix (a : String) (fs : List (String × Json))
    (f : String × Json → String × Json) (hf : ∀ q, (f q).1 = q.1) :
    ((fs.map f).lookup a).isSome = (fs.lookup a).isSome := by
  induction fs with
  | nil => rfl
  | cons q rest ih =>
    simp only [List.map, List.lookup]
    rw [hf q]
    cases hcmp : a == q.1 with
    | true => rfl
    | false => exact ih

theorem lookup_isSome_append_single (a k : String) (v : Json)
    (fs : List (String × Json)) (h : a ≠ k) :
    ((fs ++ [(k, v)]).lookup a).isSome = (fs.lookup a).isSome := by
  induction fs with
  | nil =>
    simp only [List.nil_append, List.lookup]
    have ha : (a == k) = false := by rw [beq_eq_false_iff_ne]; exact h
    simp [ha]
  | cons q rest ih =>
    simp only [List.cons_append, List.lookup]
    cases hcmp : a == q.1 with
    | true => rfl
    | false => exact ih

theorem jget_obj_single (fs : List (String × Json)) (e : String) :
    jget (.jobj fs) [.key e] = fs.lookup e := by
  simp only [jget]
  cases fs.lookup e with
  | none => rfl
  | some v => rfl

theorem jexists_err_jdel (j : Json) (p : List PathSeg)
    (h : p ≠ [PathSeg.key "error"]) :
    jexists (jdel j p) [PathSeg.key "error"] = jexists j [PathSeg.key "error"] := by
  cases j with
  | null => cases p with
    | nil => rfl
    | cons s rest => cases s <;> rfl
  | jbool b => cases p with
    | nil => rfl
    | cons s rest => cases s <;> rfl
  | jnum n => cases p with
    | nil => rfl
    | cons s rest => cases s <;> rfl
  | jstr s => cases p with
    | nil => rfl
    | cons s rest => cases s <;> rfl
  | jarr xs =>
    cases p with
    | nil => rfl
    | cons s rest =>
      cases s with
      | key k => rfl
      | idx i =>
        cases rest with
        | nil => rfl
        | cons s2 r2 =>
          simp only [jdel]
          cases xs.get? i <;> rfl
  | jobj fs =>
    cases p with
    | nil => rfl
    | cons s rest =>
      cases s with
      | idx i => rfl
      | key k =>
        cases rest with
        | nil =>
          have hk : "error" ≠ k := by
            intro hek
            exact h (by rw [hek])
          simp only [jdel, jexists, jget_obj_single]
          rw [lookup_filter_ne _ _ _ hk]
        | cons s2 r2 =>
          simp only [jdel, jexists, jget_obj_single]
          exact lookup_isSome_map_keyfix _ _ _ (fun q => by split <;> rfl)

theorem jexists_err_jset (j : Json) (k : String) (rest : List PathSeg) (v : Json)
    (h : k ≠ "error") :
    jexists (jset j (.key k :: rest) v) [PathSeg.key "error"] =
      jexists j [PathSeg.key "error"] := by
  have he : "error" ≠ k := fun hek => h hek.symm
  cases j with
  | null =>
    simp only [jset, jexists, jget_obj_single]
    simp [List.lookup, beq_eq_false_iff_ne.mpr he, jexists, jget]
  | jbool b =>
    simp only [jset, jexists, jget_obj_single]
    simp [List.lookup, beq_eq_false_iff_ne.mpr he, jexists, jget]
  | jnum n =>
    simp only [jset, jexists, jget_obj_single]
    simp [List.lookup, beq_eq_false_iff_ne.mpr he, jexists, jget]
  | jstr s =>
    simp only [jset, jexists, jget_obj_single]
    simp [List.lookup, beq_eq_false_iff_ne.mpr he, jexists, jget]
  | jarr xs =>
    simp only [jset, jexists, jget_obj_single]
    simp [List.lookup, beq_eq_false_iff_ne.mpr he, jexists, jget]
  | jobj fs =>
    simp only [jset]
    split
    · simp only [jexists, jget_obj_single]
      exact lookup_isSome_map_keyfix _ _ _ (fun q => by split <;> rfl)
    · simp only [jexists, jget_obj_single]
      exact lookup_isSome_append_single _ _ _ _ he

theorem jexists_err_deleteField (j : Json) (p : List PathSeg)
    (h : p ≠ [PathSeg.key "error"]) :
    jexists (deleteField j p) [PathSeg.key "error"] = jexists j [PathSeg.key "error"] := by
  unfold deleteField
  split
  · exact jexists_err_jdel j p h
  · rfl

theorem jexists_err_deleteFields (fields : List (List PathSeg))
    (h : ∀ p ∈ fields, p ≠ [PathSeg.key "error"]) (j : Json) :
    jexists (deleteFields j fields) [PathSeg.key "error"] =
      jexists j [PathSeg.key "error"] := by
  induction fields generalizing j with
  | nil => rfl
  | cons p rest ih =>
    simp only [deleteFields, List.foldl_cons]
    rw [show (List.foldl deleteField (deleteField j p) rest) =
      deleteFields (deleteField j p) rest from rfl]
    rw [ih (fun q hq => h q (List.mem_cons_of_mem _ hq)),
      jexists_err_deleteField j p (h p (List.mem_cons_self _ _))]

theorem jexists_err_foldl (g : Json → Nat → Json)
    (hg : ∀ d i, jexists (g d i) [PathSeg.key "error"] = jexists d [PathSeg.key "error"])
    (l : List Nat) (d : Json) :
    jexists (l.foldl g d) [PathSeg.key "error"] = jexists d [PathSeg.key "error"] := by
  induction l generalizing d with
  | nil => rfl
  | cons i rest ih => rw [List.foldl_cons, ih, hg]

theorem result_path_ne_err (rest : List PathSeg) :
    PathSeg.key "result" :: rest ≠ [PathSeg.key "error"] := by
  intro hE
  rw [List.cons.injEq] at hE
  exact absurd hE.1 (by decide)

theorem err_two_ne_err (m : String) :
    [PathSeg.key "error", PathSeg.key m] ≠ [PathSeg.key "error"] := by
  intro hE
  rw [List.cons.injEq] at hE
  exact List.noConfusion hE.2

theorem jexists_err_jset_result (j : Json) (rest : List PathSeg) (v : Json) :
    jexists (jset j (PathSeg.key "result" :: rest) v) [PathSeg.key "error"] =
      jexists j [PathSeg.key "error"] :=
  jexists_err_jset j "result" rest v (by decide)

theorem jexists_err_deleteField_result (j : Json) (rest : List PathSeg) :
    jexists (deleteField j (PathSeg.key "result" :: rest)) [PathSeg.key "error"] =
      jexists j [PathSeg.key "error"] :=
  jexists_err_deleteField j _ (result_path_ne_err rest)

theorem jexists_err_txAddressClean (c : String → String) (d : Json) :
    jexists (txAddressClean c d) [PathSeg.key "error"] =
      jexists d [PathSeg.key "error"] := by
  simp only [txAddressClean]
  split <;> split <;>
    simp only [jexists_err_jset_result, jexists_err_deleteField_result]

theorem jexists_err_logsBlockHashClean (d : Json) :
    jexists (logsBlockHashClean d) [PathSeg.key "error"] =
      jexists d [PathSeg.key "error"] :=
  jexists_err_foldl _ (fun d _ => jexists_err_deleteField_result d _) _ _

theorem jexists_err_txBlockHashClean (d : Json) :
    jexists (txBlockHashClean d) [PathSeg.key "error"] =
      jexists d [PathSeg.key "error"] :=
  jexists_err_foldl _ (fun d _ => jexists_err_deleteField_result d _) _ _

theorem jexists_err_receiptsGasClean (d : Json) :
    jexists (receiptsGasClean d) [PathSeg.key "error"] =
      jexists d [PathSeg.key "error"] := by
  refine jexists_err_foldl _ (fun d i => ?_) _ _
  refine jexists_err_deleteFields _ (fun p hp => ?_) d
  simp only [List.mem_cons, List.not_mem_nil, or_false] at hp
  rcases hp with rfl | rfl | rfl <;> exact result_path_ne_err _

theorem kakarotBlockFields_ne_err :
    ∀ p ∈ kakarotBlockFields, p ≠ [PathSeg.key "error"] := by decide

theorem blockFieldsFor_ne_err (e : Json) :
    ∀ p ∈ blockFieldsFor e, p ≠ [PathSeg.key "error"] := by
  unfold blockFieldsFor
  split
  · split
    · decide
    · decide
  · decide

theorem jexists_err_cleanTransactionData_fst (c : String → String) (r e : Json) :
    jexists (cleanTransactionData c r e).1 [PathSeg.key "error"] =
      jexists r [PathSeg.key "error"] :=
  jexists_err_txAddressClean c r

theorem jexists_err_cleanTransactionData_snd (c : String → String) (r e : Json) :
    jexists (cleanTransactionData c r e).2 [PathSeg.key "error"] =
      jexists e [PathSeg.key "error"] :=
  jexists_err_txAddressClean c e

theorem jexists_err_cleanReceiptData_fst (r e : Json) :
    jexists (cleanReceiptData r e).1 [PathSeg.key "error"] =
      jexists r [PathSeg.key "error"] := by
  unfold cleanReceiptData
  split
  · exact jexists_err_logsBlockHashClean r
  · rfl

theorem jexists_err_cleanReceiptData_snd (r e : Json) :
    jexists (cleanReceiptData r e).2 [PathSeg.key "error"] =
      jexists e [PathSeg.key "error"] := by
  unfold cleanReceiptData
  split
  · exact jexists_err_logsBlockHashClean e
  · rfl

theorem jexists_err_cleanBlockData_fst (r e : Json) :
    jexists (cleanBlockData r e).1 [PathSeg.key "error"] =
      jexists r [PathSeg.key "error"] := by
  simp only [cleanBlockData]
  split
  · rw [jexists_err_txBlockHashClean,
      jexists_err_deleteFields _ (blockFieldsFor_ne_err e) r]
  · exact jexists_err_deleteFields _ (blockFieldsFor_ne_err e) r

theorem jexists_err_cleanBlockData_snd (r e : Json) :
    jexists (cleanBlockData r e).2 [PathSeg.key "error"] =
      jexists e [PathSeg.key "error"] := by
  simp only [cleanBlockData]
  split
  · rw [jexists_err_txBlockHashClean,
      jexists_err_deleteFields _ (blockFieldsFor_ne_err e) e]
  · exact jexists_err_deleteFields _ (blockFieldsFor_ne_err e) e

theorem jexists_err_cleanReceiptsData_fst (r e : Json) :
    jexists (cleanReceiptsData r e).1 [PathSeg.key "error"] =
      jexists r [PathSeg.key "error"] :=
  jexists_err_receiptsGasClean r

theorem jexists_err_cleanReceiptsData_snd (r e : Json) :
    jexists (cleanReceiptsData r e).2 [PathSeg.key "error"] =
      jexists e [PathSeg.key "error"] :=
  jexists_err_receiptsGasClean e

theorem jexists_err_cleanKakarot_fst (c : String → String) (r e : Json) :
    jexists (cleanKakarot c r e).1 [PathSeg.key "error"] =
      jexists r [PathSeg.key "error"] := by
  simp only [cleanKakarot]
  rw [jexists_err_cleanReceiptsData_fst, jexists_err_cleanBlockData_fst,
    jexists_err_cleanReceiptData_fst, jexists_err_cleanTransactionData_fst]
  split
  · exact jexists_err_jdel r _ (err_two_ne_err _)
  · rfl

theorem jexists_err_cleanKakarot_snd (c : String → String) (r e : Json) :
    jexists (cleanKakarot c r e).2 [PathSeg.key "error"] =
      jexists e [PathSeg.key "error"] := by
  simp only [cleanKakarot]
  rw [jexists_err_cleanReceiptsData_snd, jexists_err_cleanBlockData_snd,
    jexists_err_cleanReceiptData_snd, jexists_err_cleanTransactionData_snd]
  split
  · exact jexists_err_jdel e _ (err_two_ne_err _)
  · rfl

theorem jexists_err_redact_fst (r e : Json) :
    jexists (redactErrorMessages r e).1 [PathSeg.key "error"] =
      jexists r [PathSeg.key "error"] := by
  unfold redactErrorMessages
  split
  · exact jexists_err_jdel r _ (err_two_ne_err _)
  · rfl

theorem jexists_err_redact_snd (r e : Json) :
    jexists (redactErrorMessages r e).2 [PathSeg.key "error"] =
      jexists e [PathSeg.key "error"] := by
  unfold redactErrorMessages
  split
  · exact jexists_err_jdel e _ (err_two_ne_err _)
  · rfl

theorem cleanTransactionData_components_eq (c : String → String) (a b : Json)
    (h : a = b) :
    (cleanTransactionData c a b).1 = (cleanTransactionData c a b).2 := by
  subst h; rfl

theorem cleanReceiptData_components_eq (a b : Json) (h : a = b) :
    (cleanReceiptData a b).1 = (cleanReceiptData a b).2 := by
  subst h
  unfold cleanReceiptData
  split <;> rfl

theorem cleanBlockData_components_eq (a b : Json) (h : a = b) :
    (cleanBlockData a b).1 = (cleanBlockData a b).2 := by
  subst h
  simp only [cleanBlockData]
  split <;> rfl

theorem cleanReceiptsData_components_eq (a b : Json) (h : a = b) :
    (cleanReceiptsData a b).1 = (cleanReceiptsData a b).2 := by
  subst h; rfl

theorem cleanKakarot_components_eq (c : String → String) (a b : Json) (h : a = b) :
    (cleanKakarot c a b).1 = (cleanKakarot c a b).2 := by
  subst h
  simp only [cleanKakarot]
  apply cleanReceiptsData_components_eq
  apply cleanBlockData_components_eq
  apply cleanReceiptData_components_eq
  apply cleanTransactionData_components_eq
  split <;> rfl

/-! ## Claim theorems -/

/-- C10: In the runTest RPC response comparison, the error.message field is
removed from both the actual response and the expected data exactly when
both contain an error object; consequently a test that expects an error
still fails when the client returns a success result and vice versa (an
error-presence mismatch always yields a comparison failure), while
differing error message texts alone never cause a failure when both sides
report an error. Stated for an arbitrary address-checksum function, since
that library function is external to the source. -/
theorem rpc_compat_error_message_redaction
    (checksum : String → String) (resp expectedData : Json) :
    (errorRedacted resp expectedData = true ↔
      jexists resp [PathSeg.key "error"] = true ∧
      jexists expectedData [PathSeg.key "error"] = true) ∧
    (jexists resp [PathSeg.key "error"] = false →
      jexists expectedData [PathSeg.key "error"] = true →
      responseComparisonFails checksum resp expectedData) ∧
    (jexists resp [PathSeg.key "error"] = true →
      jexists expectedData [PathSeg.key "error"] = false →
      responseComparisonFails checksum resp expectedData) ∧
    (jexists resp [PathSeg.key "error"] = true →
      jexists expectedData [PathSeg.key "error"] = true →
      jdel resp [PathSeg.key "error", PathSeg.key "message"] =
        jdel expectedData [PathSeg.key "error", PathSeg.key "message"] →
      ¬ responseComparisonFails checksum resp expectedData) := by
  refine ⟨?_, ?_, ?_, ?_⟩
  · unfold errorRedacted
    exact iff_of_eq (Bool.and_eq_true _ _)
  · intro h1 h2
    simp only [responseComparisonFails]
    intro heq
    have hE := congrArg (fun j => jexists j [PathSeg.key "error"]) heq
    simp only at hE
    rw [jexists_err_cleanKakarot_fst, jexists_err_cleanKakarot_snd,
      jexists_err_redact_fst, jexists_err_redact_snd, h1, h2] at hE
    exact Bool.noConfusion hE
  · intro h1 h2
    simp only [responseComparisonFails]
    intro heq
    have hE := congrArg (fun j => jexists j [PathSeg.key "error"]) heq
    simp only at hE
    rw [jexists_err_cleanKakarot_fst, jexists_err_cleanKakarot_snd,
      jexists_err_redact_fst, jexists_err_redact_snd, h1, h2] at hE
    exact Bool.noConfusion hE
  · intro h1 h2 h3
    simp only [responseComparisonFails]
    intro hne
    apply hne
    have hred : redactErrorMessages resp expectedData =
        (jdel resp [PathSeg.key "error", PathSeg.key "message"],
          jdel expectedData [PathSeg.key "error", PathSeg.key "message"]) := by
      simp [redactErrorMessages, errorRedacted, h1, h2]
    rw [hred]
    exact cleanKakarot_components_eq checksum _ _ h3

/-- Witness for C10 at concrete documents: a success-result response
against an expected error fails, and two responses differing only in the
error message text do not fail. -/
theorem rpc_compat_error_message_redaction_witness :
    jexists (Json.jobj [("result", Json.jstr "0x1")]) [PathSeg.key "error"] = false ∧
    jexists (Json.jobj [("error", Json.jobj [("code", Json.jnum 3)])])
      [PathSeg.key "error"] = true ∧
    responseComparisonFails id (Json.jobj [("result", Json.jstr "0x1")])
      (Json.jobj [("error", Json.jobj [("code", Json.jnum 3)])]) ∧
    ¬ responseComparisonFails id
      (Json.jobj [("error", Json.jobj [("code", Json.jnum 3), ("message", Json.jstr "a")])])
      (Json.jobj [("error", Json.jobj [("code", Json.jnum 3), ("message", Json.jstr "b")])]) :=
  ⟨by decide, by decide,
    (rpc_compat_error_message_redaction id _ _).2.1 (by decide) (by decide),
    (rpc_compat_error_message_redaction id _ _).2.2.2 (by decide) (by decide) (by decide)⟩

/-- C1: Under the per-account FIFO-by-nonce packing policy, a transaction
with a lower nonce is never assigned a later payload than one with a
higher nonce, irrespective of fee (the payload indices are monotone in
nonce order, for every transaction list); and in the two single-account
ordering tables the expected per-payload blob counts are exactly the FIFO
packing of the sent transactions: in the first table 4 payloads of 5 blobs
followed by 2 payloads of 6 blobs (never a 6-blob payload before the
5-blob payloads), with every single-blob transaction assigned to a payload
at or after the payload of the last multi-blob transaction (payload 4). -/
theorem blob_tx_single_account_fifo_ordering :
    (∀ bs : List Nat, List.Pairwise (· ≤ ·) (fifoAssign MAX_BLOBS_PER_BLOCK bs)) ∧
    fifoPack MAX_BLOBS_PER_BLOCK
        (sentBlobSizes specBlobTxOrderingSingleAccount.TestSequence) =
      expectedPayloadBlobCounts specBlobTxOrderingSingleAccount.TestSequence ∧
    expectedPayloadBlobCounts specBlobTxOrderingSingleAccount.TestSequence =
      [5, 5, 5, 5, 6, 6] ∧
    fifoAssign MAX_BLOBS_PER_BLOCK
        (sentBlobSizes specBlobTxOrderingSingleAccount.TestSequence) =
      [0, 1, 2, 3, 4, 4, 5, 5, 5, 5, 5, 5] ∧
    fifoPack MAX_BLOBS_PER_BLOCK
        (sentBlobSizes specBlobTxOrderingSingleAccount2.TestSequence) =
      expectedPayloadBlobCounts specBlobTxOrderingSingleAccount2.TestSequence :=
  ⟨fun bs => fifoAssign_pairwise MAX_BLOBS_PER_BLOCK bs,
    by decide, by decide, by decide, by decide⟩

/-- Witness for C1: the monotone payload assignment at a concrete
transaction list. -/
theorem blob_tx_single_account_fifo_ordering_witness :
    List.Pairwise (· ≤ ·) (fifoAssign MAX_BLOBS_PER_BLOCK [5, 1, 6, 2, 2]) :=
  blob_tx_single_account_fifo_ordering.1 [5, 1, 6, 2, 2]

/-- C2: In every versioned-hash corruption table (missing, extra,
out-of-order, repeated, incorrect hash, incorrect version, nil, empty, and
non-empty on a blob-less payload, in both the direct and syncing variants)
the attached expected outcome is never status Valid: every corruption with
a non-nil list carries expected status Invalid and no expected error code,
while the nil list carries expected error INVALID_PARAMS_ERROR (-32602)
and no expected status; and every pre-Cancun NewPayloadV3 table with any
required Cancun field absent carries expected error -32602 and no expected
status (in particular never status Invalid) — the pre-fork invalid-params
class and the post-fork Invalid-status class are kept distinct. -/
theorem versioned_hash_corruption_never_valid :
    (∀ s ∈ vhCorruptionSpecs, ∀ o ∈ vhOutcomes s,
      o.ExpectedStatus ≠ some PayloadStatus.Valid ∧
      (o.Blobs = none →
        o.ExpectedError = some INVALID_PARAMS_ERROR ∧ o.ExpectedStatus = none) ∧
      (o.Blobs ≠ none →
        o.ExpectedStatus = some PayloadStatus.Invalid ∧ o.ExpectedError = none)) ∧
    (∀ s ∈ preCancunV3Specs, ∀ n ∈ newPayloadSteps s,
      preCancunAllFieldsPresent n = false →
        n.ExpectedError = some INVALID_PARAMS_ERROR ∧
        n.ExpectedStatus ≠ some PayloadStatus.Invalid ∧
        n.ExpectedStatus = none) := by
  decide

/-- Witness for C2: the nil-hashes table is among the corruption tables and
its outcome carries error -32602 with no expected status. -/
theorem versioned_hash_corruption_never_valid_witness :
    specVHNilHashes ∈ vhCorruptionSpecs ∧
    (⟨none, [], none, some INVALID_PARAMS_ERROR⟩ : VHOutcome) ∈
      vhOutcomes specVHNilHashes ∧
    ((⟨none, [], none, some INVALID_PARAMS_ERROR⟩ : VHOutcome).ExpectedError =
        some INVALID_PARAMS_ERROR ∧
      (⟨none, [], none, some INVALID_PARAMS_ERROR⟩ : VHOutcome).ExpectedStatus =
        none) :=
  ⟨by decide, by decide,
    (versioned_hash_corruption_never_valid.1 specVHNilHashes (by decide)
      ⟨none, [], none, some INVALID_PARAMS_ERROR⟩ (by decide)).2.1 rfl⟩

/-- C3: In the first single-account ordering table (5 transactions of
MAX_BLOBS_PER_BLOCK - 1 = 5 blobs each, then MAX_BLOBS_PER_BLOCK + 1 = 7
one-blob transactions) the expected payload schedule is exactly 4 payloads
of 5 blobs followed by 2 payloads of 6 blobs, and the total expected blob
count (4 times 5 plus 2 times 6 = 32) equals the total number of blobs
sent (5 times 5 plus 7 times 1 = 32). -/
theorem single_account_blob_schedule_conserved :
    MAX_BLOBS_PER_BLOCK - 1 = 5 ∧ MAX_BLOBS_PER_BLOCK + 1 = 7 ∧
    expectedPayloadBlobCounts specBlobTxOrderingSingleAccount.TestSequence =
      List.replicate 4 5 ++ List.replicate 2 6 ∧
    sentBlobSizes specBlobTxOrderingSingleAccount.TestSequence =
      List.replicate 5 5 ++ List.replicate 7 1 ∧
    (expectedPayloadBlobCounts specBlobTxOrderingSingleAccount.TestSequence).sum = 32 ∧
    (sentBlobSizes specBlobTxOrderingSingleAccount.TestSequence).sum = 32 ∧
    4 * 5 + 2 * 6 = 32 ∧ 5 * 5 + 7 * 1 = 32 := by
  decide

/-- C4: In the blob-gas price escalation table, after
DATA_GAS_COST_INCREMENT_EXCEED_BLOBS / (MAX_BLOBS_PER_BLOCK -
TARGET_BLOBS_PER_BLOCK) = 6 payloads each carrying MAX_BLOBS_PER_BLOCK
blobs the accumulated excess blob gas (by the update formula) is 18 blobs
worth, where the blob gas price reaches 2, exceeding the declared max blob
gas cost 1 of the sent transactions; the table then expects a payload with
0 blobs immediately after the full payloads, followed by a payload with
MAX_BLOBS_PER_BLOCK blobs. -/
theorem blob_gas_price_escalation_schedule :
    DATA_GAS_COST_INCREMENT_EXCEED_BLOBS = 18 ∧
    excessAfterMaxBlobPayloads
        (DATA_GAS_COST_INCREMENT_EXCEED_BLOBS /
          (MAX_BLOBS_PER_BLOCK - TARGET_BLOBS_PER_BLOCK)) =
      DATA_GAS_COST_INCREMENT_EXCEED_BLOBS * GAS_PER_BLOB ∧
    GetBlobGasPrice (DATA_GAS_COST_INCREMENT_EXCEED_BLOBS * GAS_PER_BLOB) = 2 ∧
    1 < GetBlobGasPrice (DATA_GAS_COST_INCREMENT_EXCEED_BLOBS * GAS_PER_BLOB) ∧
    GetBlobGasPrice ((DATA_GAS_COST_INCREMENT_EXCEED_BLOBS - 1) * GAS_PER_BLOB) < 2 ∧
    specBlobTxOnBlock1ShanghaiGenesis.TestSequence.get? 3 =
      some (.sendBlobTransactions
        { TransactionCount :=
            DATA_GAS_COST_INCREMENT_EXCEED_BLOBS /
              (MAX_BLOBS_PER_BLOCK - TARGET_BLOBS_PER_BLOCK) + 1,
          BlobsPerTransaction := MAX_BLOBS_PER_BLOCK,
          BlobTransactionMaxBlobGasCost := some 1 }) ∧
    specBlobTxOnBlock1ShanghaiGenesis.TestSequence.get? 4 =
      some (.newPayloads
        { PayloadCount :=
            DATA_GAS_COST_INCREMENT_EXCEED_BLOBS /
              (MAX_BLOBS_PER_BLOCK - TARGET_BLOBS_PER_BLOCK),
          ExpectedIncludedBlobCount := MAX_BLOBS_PER_BLOCK }) ∧
    specBlobTxOnBlock1ShanghaiGenesis.TestSequence.get? 5 =
      some (.newPayloads { ExpectedIncludedBlobCount := 0 }) ∧
    specBlobTxOnBlock1ShanghaiGenesis.TestSequence.get? 6 =
      some (.newPayloads { ExpectedIncludedBlobCount := MAX_BLOBS_PER_BLOCK }) := by
  decide

/-- C5: In the replace-transactions table, the four same-nonce sends carry
strictly increasing tips (1e9, 1e10, 1e11, 1e12 for blob IDs 0 to 3), each
send after the first is flagged as a replacement, and the first expected
payload contains exactly 1 blob whose BlobID is 3, the blob of the final
replacement (no superseded transaction appears). -/
theorem replace_blob_transactions_final_only :
    sentTipCaps specReplaceBlobTransactions.TestSequence =
      [some 1000000000, some 10000000000, some 100000000000,
        some 1000000000000] ∧
    sentReplaceFlags specReplaceBlobTransactions.TestSequence =
      [false, true, true, true] ∧
    (1000000000 : Nat) < 10000000000 ∧ (10000000000 : Nat) < 100000000000 ∧
    (100000000000 : Nat) < 1000000000000 ∧
    specReplaceBlobTransactions.TestSequence.get? 4 =
      some (.newPayloads
        { ExpectedIncludedBlobCount := 1, ExpectedBlobs := some [3] }) := by
  decide

/-- C6: The scenario constants satisfy exactly GAS_PER_BLOB = 0x20000 =
2 to the 17 = 131072, TARGET_BLOBS_PER_BLOCK = 393216 / 131072 = 3 and
MAX_BLOBS_PER_BLOCK = 786432 / 131072 = 6, both divisions exact, and
BLOB_COMMITMENT_VERSION_KZG = 0x01. -/
theorem eip4844_scenario_constants :
    GAS_PER_BLOB = 0x20000 ∧ GAS_PER_BLOB = 2 ^ 17 ∧ GAS_PER_BLOB = 131072 ∧
    TARGET_BLOBS_PER_BLOCK = TARGET_BLOB_GAS_PER_BLOCK / GAS_PER_BLOB ∧
    TARGET_BLOBS_PER_BLOCK = 3 ∧
    TARGET_BLOBS_PER_BLOCK * GAS_PER_BLOB = TARGET_BLOB_GAS_PER_BLOCK ∧
    MAX_BLOBS_PER_BLOCK = MAX_BLOB_GAS_PER_BLOCK / GAS_PER_BLOB ∧
    MAX_BLOBS_PER_BLOCK = 6 ∧
    MAX_BLOBS_PER_BLOCK * GAS_PER_BLOB = MAX_BLOB_GAS_PER_BLOCK ∧
    BLOB_COMMITMENT_VERSION_KZG = 0x01 := by
  decide

/-- C7: In the Cancun-genesis table (fork height 0), after the step sending
TARGET_BLOBS_PER_BLOCK = 3 one-blob transactions with max blob gas cost 1,
the next produced payload is expected to contain exactly 3 blobs whose
BlobIDs are 0, 1, 2 in submission order. -/
theorem cancun_genesis_three_blob_payload :
    specBlobTxOnBlock1CancunGenesis.CancunForkHeight = 0 ∧
    specBlobTxOnBlock1CancunGenesis.TestSequence.get? 1 =
      some (.sendBlobTransactions
        { TransactionCount := TARGET_BLOBS_PER_BLOCK,
          BlobTransactionMaxBlobGasCost := some 1 }) ∧
    TARGET_BLOBS_PER_BLOCK = 3 ∧
    blobsPerTxEffective
      { TransactionCount := TARGET_BLOBS_PER_BLOCK,
        BlobTransactionMaxBlobGasCost := some 1 } = 1 ∧
    specBlobTxOnBlock1CancunGenesis.TestSequence.get? 2 =
      some (.newPayloads
        { ExpectedIncludedBlobCount := TARGET_BLOBS_PER_BLOCK,
          ExpectedBlobs := some (GetBlobList 0 TARGET_BLOBS_PER_BLOCK) }) ∧
    GetBlobList 0 TARGET_BLOBS_PER_BLOCK = [0, 1, 2] := by
  decide

/-- C8: In the out-of-order syncing table, a secondary client is launched
with SkipAddingToCLMock and SkipConnectingToBootnode both true, and the
direct SendModifiedLatestPayload to that client (ClientID 1) carries the
versioned-hash list with its first and last entries transposed and the
expected status Invalid (no expected error code). -/
theorem out_of_order_syncing_expected_invalid :
    specVHOutOfOrderSyncing.TestSequence.get? 3 =
      some (.launchClients
        { SkipAddingToCLMock := true, SkipConnectingToBootnode := true }) ∧
    specVHOutOfOrderSyncing.TestSequence.get? 4 =
      some (.sendModifiedLatestPayload
        { ClientID := 1,
          VersionedHashes := some
            { Blobs := some (GetBlobListByIndex (TARGET_BLOBS_PER_BLOCK - 1) 0) },
          ExpectedStatus := some .Invalid }) ∧
    GetBlobListByIndex (TARGET_BLOBS_PER_BLOCK - 1) 0 =
      transposeFirstLast (GetBlobList 0 TARGET_BLOBS_PER_BLOCK) ∧
    GetBlobListByIndex (TARGET_BLOBS_PER_BLOCK - 1) 0 = [2, 1, 0] := by
  decide

/-- C9: Across the pre-Cancun NewPayloadV3 tables, the expected error is
UNSUPPORTED_FORK_ERROR (-38005) exactly when every required Cancun field is
present (all-zero values), and INVALID_PARAMS_ERROR (-32602) exactly when
at least one required field is nil; no pre-Cancun table expects a status
(in particular, never status Invalid). -/
theorem pre_cancun_error_code_classes :
    ∀ s ∈ preCancunV3Specs, ∀ n ∈ newPayloadSteps s,
      (preCancunAllFieldsPresent n = true ↔
        n.ExpectedError = some UNSUPPORTED_FORK_ERROR) ∧
      (preCancunAllFieldsPresent n = false ↔
        n.ExpectedError = some INVALID_PARAMS_ERROR) ∧
      n.ExpectedStatus = none := by
  decide

/-- Witness for C9: the all-fields-present zero-value table carries the
unsupported-fork error. -/
theorem pre_cancun_error_code_classes_witness :
    specPreCancunZeroDataEmptyVHZeroRoot ∈ preCancunV3Specs ∧
    ({ ExpectedIncludedBlobCount := 0,
       Version := 3,
       VersionedHashes := some { Blobs := some [] },
       PayloadCustomizer := some
         { ExcessBlobGas := some 0, BlobGasUsed := some 0,
           ParentBeaconRoot := some 0 },
       ExpectedError := some UNSUPPORTED_FORK_ERROR } : NewPayloads) ∈
      newPayloadSteps specPreCancunZeroDataEmptyVHZeroRoot ∧
    ({ ExpectedIncludedBlobCount := 0,
       Version := 3,
       VersionedHashes := some { Blobs := some [] },
       PayloadCustomizer := some
         { ExcessBlobGas := some 0, BlobGasUsed := some 0,
           ParentBeaconRoot := some 0 },
       ExpectedError := some UNSUPPORTED_FORK_ERROR } : NewPayloads).ExpectedError =
      some UNSUPPORTED_FORK_ERROR :=
  ⟨by decide, by decide,
    (pre_cancun_error_code_classes specPreCancunZeroDataEmptyVHZeroRoot (by decide)
      _ (by decide)).1.mp (by decide)⟩
